import Mathlib

/-!
Verification of the Rancher MCP client (minimal-mcp-v2) against its
specification.  The Python source is shallowly embedded: the retry loop of
`AsyncRancher._request` becomes a pure function over a scripted sequence of
attempt outcomes that also records the backoff sleeps it performs; the
pagination walk, cluster-id resolution, URL construction and the two tool
projections become pure functions over explicit page/record data.
-/

/-- An HTTP response as seen by the retry wrapper: its status code and an
identifying body. -/
structure Response where
  status : Nat
  body : String
deriving DecidableEq

/-- Outcome of one call to the underlying transport
(`self._client.request`): either a response came back, or the transport
raised (httpx.TransportError), identified by a numeric tag. -/
inductive Outcome where
  | resp (r : Response)
  | transport (e : Nat)
deriving DecidableEq

/-- The failure kept in `last_exc` and raised when retries are exhausted:
an httpx.HTTPStatusError wrapping a retryable-status response, an
httpx.TransportError, or the AssertionError from `assert last_exc` (only
reachable when `max_retries` is 0 so the loop body never runs). -/
inductive ReqError where
  | httpStatus (r : Response)
  | transportFail (e : Nat)
  | assertFailed
deriving DecidableEq

/-- The retryable status set of `_request`: `(429, 500, 502, 503, 504)`. -/
def retryableStatuses : List Nat := [429, 500, 502, 503, 504]

/-- Whether an attempt outcome enters the `except` branch of `_request`:
a transport error always does, a response does iff its status is in the
retryable set (the code raises HTTPStatusError on those). -/
def isRetryable : Outcome → Bool
  | .resp r => r.status ∈ retryableStatuses
  | .transport _ => true

/-- The exception object stored into `last_exc` for a retryable outcome. -/
def outcomeErr : Outcome → ReqError
  | .resp r => .httpStatus r
  | .transport e => .transportFail e

/-- Backoff duration before the next attempt, from
`await asyncio.sleep(0.25 * (2 ** (attempt - 1)))`. -/
def backoff (attempt : Nat) : ℚ := (0.25 : ℚ) * 2 ^ (attempt - 1)

/-- The body of the `for attempt in range(1, self.max_retries + 1)` loop of
`AsyncRancher._request`, iterated over the list of attempt numbers.
`script` gives the transport outcome of each attempt, `last` is `last_exc`,
`sleeps` accumulates the performed backoff delays.  A response with a
status in the retryable set raises and is caught like a transport error;
any other response is returned as-is.  When the attempt list is exhausted
the stored `last_exc` is raised (`assert last_exc; raise last_exc`). -/
def requestLoop (script : Nat → Outcome) :
    List Nat → Option ReqError → List ℚ → Except ReqError Response × List ℚ
  | [], last, sleeps =>
    match last with
    | some e => (.error e, sleeps)
    | none => (.error .assertFailed, sleeps)
  | attempt :: rest, last, sleeps =>
    match script attempt with
    | .resp r =>
      if r.status ∈ retryableStatuses then
        requestLoop script rest (some (.httpStatus r)) (sleeps ++ [backoff attempt])
      else
        (.ok r, sleeps)
    | .transport e =>
      requestLoop script rest (some (.transportFail e)) (sleeps ++ [backoff attempt])

/-- `AsyncRancher._request` over a scripted transport: run the retry loop
for attempts `1, …, max_retries`, starting with `last_exc = None` and no
sleeps performed. -/
def request (script : Nat → Outcome) (max_retries : Nat) :
    Except ReqError Response × List ℚ :=
  requestLoop script (List.range' 1 max_retries) none []

/-- `last_exc` after a block of consumed retryable attempts: each one
overwrites it with its own exception. -/
def lastErrAux (script : Nat → Outcome) (last : Option ReqError) :
    List Nat → Option ReqError
  | [] => last
  | a :: rest => lastErrAux script (some (outcomeErr (script a))) rest

lemma lastErrAux_concat (script : Nat → Outcome) (last : Option ReqError)
    (l : List Nat) (a : Nat) :
    lastErrAux script last (l ++ [a]) = some (outcomeErr (script a)) := by
  induction l generalizing last with
  | nil => rfl
  | cons b l ih => simpa [lastErrAux] using ih _

/-- Running the loop over a block of retryable attempts followed by the
rest: the block contributes its backoff sleeps and updates `last_exc`. -/
lemma requestLoop_run (script : Nat → Outcome) (l1 l2 : List Nat)
    (last : Option ReqError) (sleeps : List ℚ)
    (h : ∀ a ∈ l1, isRetryable (script a) = true) :
    requestLoop script (l1 ++ l2) last sleeps =
      requestLoop script l2 (lastErrAux script last l1)
        (sleeps ++ l1.map backoff) := by
  induction l1 generalizing last sleeps with
  | nil => simp [lastErrAux]
  | cons a l ih =>
    have ha : isRetryable (script a) = true := h a (by simp)
    have hl : ∀ b ∈ l, isRetryable (script b) = true := by
      intro b hb; exact h b (by simp [hb])
    cases hs : script a with
    | resp r =>
      have hr : r.status ∈ retryableStatuses := by
        simpa [isRetryable, hs] using ha
      simp [requestLoop, hs, hr, lastErrAux, outcomeErr, ih _ _ hl]
    | transport e =>
      simp [requestLoop, hs, lastErrAux, outcomeErr, ih _ _ hl]

/-- The loop only consults the script at the attempt numbers it runs. -/
lemma requestLoop_congr (script script2 : Nat → Outcome) (l : List Nat)
    (last : Option ReqError) (sleeps : List ℚ)
    (h : ∀ a ∈ l, script2 a = script a) :
    requestLoop script2 l last sleeps = requestLoop script l last sleeps := by
  induction l generalizing last sleeps with
  | nil => rfl
  | cons a l ih =>
    have ha : script2 a = script a := h a (by simp)
    have hl : ∀ b ∈ l, script2 b = script b := by
      intro b hb; exact h b (by simp [hb])
    cases hs : script a with
    | resp r =>
      by_cases hr : r.status ∈ retryableStatuses <;>
        simp [requestLoop, ha, hs, hr, ih _ _ hl]
    | transport e =>
      simp [requestLoop, ha, hs, ih _ _ hl]

/-- If attempts `1, …, N-1` are retryable and attempt `N ≤ max_retries`
returns a response outside the retryable set, `_request` returns that
response after exactly the backoffs of attempts `1, …, N-1`. -/
lemma request_firstReturn (script : Nat → Outcome) (M N : Nat) (r : Response)
    (hN1 : 1 ≤ N) (hNM : N ≤ M)
    (hretry : ∀ a, 1 ≤ a → a < N → isRetryable (script a) = true)
    (hsucc : script N = .resp r)
    (hstat : r.status ∉ retryableStatuses) :
    request script M = (.ok r, (List.range' 1 (N - 1)).map backoff) := by
  have hsplit : List.range' 1 M = List.range' 1 (N - 1) ++ List.range' N (M - (N - 1)) := by
    have h1 : 1 + (N - 1) = N := by omega
    have h2 : (M - (N - 1)) + (N - 1) = M := by omega
    have := List.range'_append_1 1 (N - 1) (M - (N - 1))
    rw [h1, h2] at this
    exact this.symm
  have hpos : M - (N - 1) = (M - N) + 1 := by omega
  have hstep : List.range' N (M - (N - 1)) = N :: List.range' (N + 1) (M - N) := by
    rw [hpos, List.range'_succ]
  rw [request, hsplit, requestLoop_run script _ _ none []]
  · rw [hstep]
    simp [requestLoop, hsucc, hstat]
  · intro a ha
    rw [List.mem_range'_1] at ha
    exact hretry a ha.1 (by omega)

/-- C1 (claim): if the first `N-1` scripted attempts are retryable failures
and attempt `N` (with `N ≤ max_retries`) returns a non-retryable response,
`_request` returns that response and performs exactly `N-1` backoff delays
of durations `0.25 * 2^(attempt-1)` seconds for attempts `1, …, N-1`. -/
theorem C1_retry_success (script : Nat → Outcome) (M N : Nat) (r : Response)
    (hN1 : 1 ≤ N) (hNM : N ≤ M)
    (hretry : ∀ a, 1 ≤ a → a < N → isRetryable (script a) = true)
    (hsucc : script N = .resp r)
    (hstat : r.status ∉ retryableStatuses) :
    request script M =
      (.ok r, (List.range' 1 (N - 1)).map (fun i => (0.25 : ℚ) * 2 ^ (i - 1))) ∧
    (request script M).2.length = N - 1 := by
  have h := request_firstReturn script M N r hN1 hNM hretry hsucc hstat
  refine ⟨h, ?_⟩
  rw [h]
  simp

/-- C1 witness: two transport errors then a 200 response, with
`max_retries = 3`: the 200 response is returned after sleeps
`[0.25, 0.5]`. -/
theorem C1_retry_success_witness :
    request (fun n => if n < 3 then .transport 7 else .resp ⟨200, "ok"⟩) 3 =
      (.ok ⟨200, "ok"⟩, [(0.25 : ℚ), 0.5]) := by
  have h := C1_retry_success (fun n => if n < 3 then .transport 7 else .resp ⟨200, "ok"⟩)
    3 3 ⟨200, "ok"⟩ (by decide) (by decide)
    (by intro a h1 h2; interval_cases a <;> decide)
    (by decide) (by decide)
  rw [h.1]
  norm_num [List.range']

/-- When every attempt `1, …, max_retries` is retryable, `_request` raises
the exception of the last attempt, after one backoff per attempt. -/
lemma request_exhaust (script : Nat → Outcome) (M : Nat)
    (hM : 1 ≤ M)
    (hall : ∀ a, 1 ≤ a → a ≤ M → isRetryable (script a) = true) :
    request script M =
      (.error (outcomeErr (script M)), (List.range' 1 M).map backoff) := by
  have hmem : ∀ a ∈ List.range' 1 M, isRetryable (script a) = true := by
    intro a ha
    rw [List.mem_range'_1] at ha
    exact hall a ha.1 (by omega)
  have h := requestLoop_run script (List.range' 1 M) [] none [] hmem
  rw [List.append_nil] at h
  have hsplit : List.range' 1 M = List.range' 1 (M - 1) ++ [M] := by
    have h1 : M = (M - 1) + 1 := by omega
    rw [h1, List.range'_concat]
    simp
    omega
  rw [request, h, hsplit, lastErrAux_concat]
  rfl

/-- C2 (claim): if every attempt up to `max_retries` is a retryable
failure, `_request` raises the failure of the last attempt; and the result
depends only on the outcomes of attempts `1, …, max_retries`, so no attempt
beyond `max_retries` is performed. -/
theorem C2_retry_exhausted (script : Nat → Outcome) (M : Nat)
    (hM : 1 ≤ M)
    (hall : ∀ a, 1 ≤ a → a ≤ M → isRetryable (script a) = true) :
    (request script M).1 = .error (outcomeErr (script M)) ∧
    (∀ script2 : Nat → Outcome, (∀ a, 1 ≤ a → a ≤ M → script2 a = script a) →
      request script2 M = request script M) := by
  constructor
  · rw [request_exhaust script M hM hall]
  · intro script2 h2
    apply requestLoop_congr
    intro a ha
    rw [List.mem_range'_1] at ha
    exact h2 a ha.1 (by omega)

/-- C2 witness: both attempts fail with status 503 under
`max_retries = 2`; the raised error wraps the last 503 response, and a
script that differs only from attempt 3 on gives the same run. -/
theorem C2_retry_exhausted_witness :
    (request (fun n => .resp ⟨503, toString n⟩) 2).1 =
        .error (.httpStatus ⟨503, "2"⟩) ∧
      request (fun n => if n ≤ 2 then .resp ⟨503, toString n⟩ else .resp ⟨200, "x"⟩) 2 =
        request (fun n => .resp ⟨503, toString n⟩) 2 := by
  have h := C2_retry_exhausted (fun n => .resp ⟨503, toString n⟩) 2 (by decide)
    (by intro a h1 h2; interval_cases a <;> decide)
  exact ⟨h.1, h.2 _ (by intro a h1 h2; interval_cases a <;> simp)⟩

/-- C10 (implicit claim): when every attempt up to `max_retries` is a
retryable failure, a backoff delay is performed after every attempt
including the final one — `max_retries` delays in total, of durations
`0.25 * 2^(attempt-1)`, the last of duration `0.25 * 2^(max_retries-1)` —
before the last failure is raised. -/
theorem C10_sleep_after_final_attempt (script : Nat → Outcome) (M : Nat)
    (hM : 1 ≤ M)
    (hall : ∀ a, 1 ≤ a → a ≤ M → isRetryable (script a) = true) :
    (request script M).2 =
        (List.range' 1 M).map (fun i => (0.25 : ℚ) * 2 ^ (i - 1)) ∧
      (request script M).2.length = M ∧
      (request script M).2.getLast? = some ((0.25 : ℚ) * 2 ^ (M - 1)) ∧
      (request script M).1 = .error (outcomeErr (script M)) := by
  have h := request_exhaust script M hM hall
  rw [h]
  refine ⟨rfl, by simp, ?_, rfl⟩
  rw [List.getLast?_map, List.getLast?_range']
  have hM0 : M ≠ 0 := by omega
  simp [hM0, backoff]

/-- C10 witness: two transport failures under `max_retries = 2`: the run
sleeps `[0.25, 0.5]` — a delay after the final attempt too — then raises
the transport error of attempt 2. -/
theorem C10_sleep_after_final_attempt_witness :
    (request (fun n => .transport n) 2).2 = [(0.25 : ℚ), 0.5] ∧
      (request (fun n => .transport n) 2).1 = .error (.transportFail 2) := by
  have h := C10_sleep_after_final_attempt (fun n => .transport n) 2 (by decide)
    (by intro a h1 h2; rfl)
  refine ⟨?_, h.2.2.2⟩
  rw [h.1]
  norm_num [List.range']

/-- C7 (claim): any response whose status is outside the retryable set
`(429, 500, 502, 503, 504)` — whether 4xx or 5xx — is returned as-is by
`_request` on the attempt that produced it, with no further retry and no
backoff delay for that attempt (only the delays of the earlier failed
attempts are performed). -/
theorem C7_nonretryable_passthrough (script : Nat → Outcome) (M k s : Nat)
    (b : String)
    (hk1 : 1 ≤ k) (hkM : k ≤ M)
    (hretry : ∀ a, 1 ≤ a → a < k → isRetryable (script a) = true)
    (hk : script k = .resp ⟨s, b⟩) (hs : s ∉ retryableStatuses) :
    (request script M).1 = .ok ⟨s, b⟩ ∧
      (request script M).2.length = k - 1 := by
  have h := request_firstReturn script M k ⟨s, b⟩ hk1 hkM hretry hk hs
  rw [h]
  simp

/-- C7 witness: a 503 on attempt 1, then a 404 on attempt 2, under
`max_retries = 3`: the 404 response is returned as-is with a single sleep
(the one following the 503). -/
theorem C7_nonretryable_passthrough_witness :
    (request (fun n => if n = 1 then .resp ⟨503, "err"⟩ else .resp ⟨404, "nf"⟩) 3).1 =
        .ok ⟨404, "nf"⟩ ∧
      (request (fun n => if n = 1 then .resp ⟨503, "err"⟩ else .resp ⟨404, "nf"⟩) 3).2.length = 1 :=
  C7_nonretryable_passthrough (fun n => if n = 1 then .resp ⟨503, "err"⟩ else .resp ⟨404, "nf"⟩)
    3 2 404 "nf" (by decide) (by decide)
    (by intro a h1 h2; interval_cases a <;> decide)
    (by decide) (by decide)

/-- One page of a Rancher v3 collection response, as consumed by
`rancher_list_all`: the `data` field (item list, possibly absent/null) and
the `links.next` field (possibly absent/null). -/
structure Page (α : Type) where
  data : Option (List α)
  next : Option String
deriving DecidableEq

/-- `items = data.get("data") or []`: an absent item list yields `[]`. -/
def pageItems {α : Type} (p : Page α) : List α := p.data.getD []

/-- `next_url = (data.get("links") or {}).get("next")` followed by
`if not next_url: break`: pagination continues only when the next link is
present and non-empty (Python truthiness). -/
def pageHasNext {α : Type} (p : Page α) : Bool :=
  match p.next with
  | none => false
  | some u => if u = "" then false else true

/-- `AsyncRancher.rancher_list_all` over a scripted sequence of pages: the
k-th element of the list is the page the k-th GET returns (the first
against the collection path, each later one against the previous page's
next link).  Yield the items of each page in order; stop after the first
page without a (truthy) next link. -/
def rancher_list_all {α : Type} : List (Page α) → List α
  | [] => []
  | p :: rest =>
    pageItems p ++ (if pageHasNext p then rancher_list_all rest else [])

/-- C3 (claim): if every page before the last carries a next-page link and
the last page omits it, `rancher_list_all` yields exactly the concatenation
of all pages' items in response order, and it terminates at the last page
— pages scripted after it do not affect the result. -/
theorem C3_pagination {α : Type} (ps : List (Page α)) (plast : Page α)
    (hps : ∀ p ∈ ps, ∃ u, p.next = some u ∧ u ≠ "")
    (hlast : plast.next = none) :
    rancher_list_all (ps ++ [plast]) = ((ps ++ [plast]).map pageItems).flatten ∧
    ∀ extra : List (Page α),
      rancher_list_all (ps ++ [plast] ++ extra) =
        rancher_list_all (ps ++ [plast]) := by
  induction ps with
  | nil =>
    constructor
    · simp [rancher_list_all, pageHasNext, hlast]
    · intro extra
      simp [rancher_list_all, pageHasNext, hlast]
  | cons p ps ih =>
    have hp : pageHasNext p = true := by
      obtain ⟨u, hu, hne⟩ := hps p (by simp)
      simp [pageHasNext, hu, hne]
    have hps2 : ∀ q ∈ ps, ∃ u, q.next = some u ∧ u ≠ "" := by
      intro q hq; exact hps q (by simp [hq])
    obtain ⟨ih1, ih2⟩ := ih hps2
    constructor
    · simp [rancher_list_all, hp, ih1]
    · intro extra
      simp only [List.cons_append, rancher_list_all, hp, if_true]
      exact congrArg (fun l => pageItems p ++ l) (ih2 extra)

/-- C3 witness: three pages with items `[1,2]`, `[3]`, `[4,5]` where the
first two carry next links and the third does not: listing yields
`[1,2,3,4,5]`, and a fourth scripted page is never reached. -/
theorem C3_pagination_witness :
    rancher_list_all
        [(⟨some [1, 2], some "u2"⟩ : Page Nat), ⟨some [3], some "u3"⟩,
          ⟨some [4, 5], none⟩] = [1, 2, 3, 4, 5] ∧
      rancher_list_all
        [(⟨some [1, 2], some "u2"⟩ : Page Nat), ⟨some [3], some "u3"⟩,
          ⟨some [4, 5], none⟩, ⟨some [9], none⟩] = [1, 2, 3, 4, 5] := by
  have h := C3_pagination [(⟨some [1, 2], some "u2"⟩ : Page Nat), ⟨some [3], some "u3"⟩]
    ⟨some [4, 5], none⟩
    (by intro p hp; fin_cases hp
        · exact ⟨"u2", rfl, by decide⟩
        · exact ⟨"u3", rfl, by decide⟩)
    rfl
  exact ⟨h.1.trans (by decide), ((h.2 [⟨some [9], none⟩]).trans h.1).trans (by decide)⟩

/-- The `rancherKubernetesEngineConfig` sub-object of a cluster record,
as far as the tools read it. -/
structure RKEConfig where
  kubernetesVersion : Option String
deriving DecidableEq

/-- A cluster record from the `/v3/clusters` listing, restricted to the
fields the code reads with `.get`; each may be absent (None). -/
structure Cluster where
  id : Option String
  name : Option String
  displayName : Option String
  state : Option String
  rancherKubernetesEngineConfig : Option RKEConfig
deriving DecidableEq

/-- The ID heuristic of `resolve_cluster_id`:
`":" in name_or_id or name_or_id.startswith("c-")`, stated on the
character sequence of the input. -/
def looksLikeId (s : String) : Bool :=
  s.data.contains ':' || ("c-").data.isPrefixOf s.data

/-- The match test of the resolution scan:
`c.get("name") == name_or_id or c.get("displayName") == name_or_id`
(an absent field never equals the query). -/
def matchesName (q : String) (c : Cluster) : Bool :=
  c.name == some q || c.displayName == some q

/-- Whether `cid = c.get("id"); if cid:` takes the return branch: the id
must be present and non-empty (Python truthiness). -/
def truthyId (c : Cluster) : Bool :=
  match c.id with
  | none => false
  | some s => if s = "" then false else true

/-- The `async for` scan of `resolve_cluster_id` over the listed clusters:
on a name/displayName match, return the id if it is truthy, otherwise keep
scanning; after exhaustion raise `ValueError("Cluster not found: …")`
(modelled as `.error` carrying the message). -/
def findIdScan (q : String) : List Cluster → Except String String
  | [] => .error (("Cluster not found: ") ++ q)
  | c :: rest =>
    if matchesName q c then
      match c.id with
      | some cid => if cid = "" then findIdScan q rest else .ok cid
      | none => findIdScan q rest
    else
      findIdScan q rest

/-- `AsyncRancher.resolve_cluster_id` over a scripted `/v3/clusters`
listing.  The boolean records whether the listing was fetched (i.e. whether
any network request was issued). -/
def resolve_cluster_id (q : String) (pages : List (Page Cluster)) :
    Except String String × Bool :=
  if looksLikeId q then (.ok q, false)
  else (findIdScan q (rancher_list_all pages), true)

lemma findIdScan_eq_find (q : String) (cs : List Cluster) :
    findIdScan q cs =
      match cs.find? (fun c => matchesName q c && truthyId c) with
      | some c => .ok (c.id.getD (""))
      | none => .error (("Cluster not found: ") ++ q) := by
  induction cs with
  | nil => rfl
  | cons c rest ih =>
    by_cases hm : matchesName q c
    · cases hid : c.id with
      | none =>
        have ht : truthyId c = false := by simp [truthyId, hid]
        simp [findIdScan, hm, hid, List.find?, ht, ih]
      | some cid =>
        by_cases hc : cid = ""
        · have ht : truthyId c = false := by simp [truthyId, hid, hc]
          simp [findIdScan, hm, hid, hc, List.find?, ht, ih]
        · have ht : truthyId c = true := by simp [truthyId, hid, hc]
          simp [findIdScan, hm, hid, hc, List.find?, ht, Option.getD]
    · have hm2 : matchesName q c = false := by simpa using hm
      simp [findIdScan, hm2, List.find?, ih]

/-- C4 counterexample to the claim as stated: in a listing whose first
matching cluster (name `prod`) has no `id` field, resolution does not
return that first match's id — it keeps scanning and returns the id
`x-1` of the second matching cluster. -/
theorem C4_resolution_counterexample :
    (resolve_cluster_id ("prod")
        [⟨some [⟨none, some ("prod"), none, none, none⟩,
                ⟨some ("x-1"), some ("prod"), none, none, none⟩], none⟩]).1 =
      .ok ("x-1") ∧
    (rancher_list_all
        [(⟨some [⟨none, some ("prod"), none, none, none⟩,
                 ⟨some ("x-1"), some ("prod"), none, none, none⟩], none⟩ : Page Cluster)]).find?
        (matchesName ("prod")) =
      some ⟨none, some ("prod"), none, none, none⟩ ∧
    (⟨none, some ("prod"), none, none, none⟩ : Cluster).id = none := by
  refine ⟨?_, ?_, rfl⟩ <;> rfl

/-- C4 (amended): an input containing `:` or starting with `c-` is
returned unchanged with no network request; any other input triggers the
paged listing fetch, and the first cluster whose name or displayName
equals the input *and whose id is present and non-empty* wins, its id
being returned (matches with an absent or empty id are skipped); if the
listing is exhausted without such a match, resolution fails with a
not-found error naming the input. -/
theorem C4_resolution_amended (q : String) (pages : List (Page Cluster)) :
    (looksLikeId q = true → resolve_cluster_id q pages = (.ok q, false)) ∧
    (looksLikeId q = false →
      (resolve_cluster_id q pages).2 = true ∧
      (resolve_cluster_id q pages).1 =
        (match (rancher_list_all pages).find?
            (fun c => matchesName q c && truthyId c) with
         | some c => .ok (c.id.getD (""))
         | none => .error (("Cluster not found: ") ++ q))) := by
  constructor
  · intro h
    simp [resolve_cluster_id, h]
  · intro h
    refine ⟨by simp [resolve_cluster_id, h], ?_⟩
    simp [resolve_cluster_id, h, findIdScan_eq_find]

/-- C4 witness: `c-abc12` is returned unchanged without fetching; against
a listing holding a cluster named `prod` with id `c-abc12`, resolving
`prod` yields `c-abc12` and resolving `nonexistent` yields the not-found
error. -/
theorem C4_resolution_amended_witness :
    resolve_cluster_id ("c-abc12") [] = (.ok ("c-abc12"), false) ∧
    (resolve_cluster_id ("prod")
        [⟨some [⟨some ("c-abc12"), some ("prod"), none, none, none⟩], none⟩]).1 =
      .ok ("c-abc12") ∧
    (resolve_cluster_id ("nonexistent")
        [⟨some [⟨some ("c-abc12"), some ("prod"), none, none, none⟩], none⟩]).1 =
      .error ("Cluster not found: nonexistent") := by
  refine ⟨(C4_resolution_amended ("c-abc12") []).1 (by decide), ?_, ?_⟩
  · exact ((C4_resolution_amended ("prod")
      [⟨some [⟨some ("c-abc12"), some ("prod"), none, none, none⟩], none⟩]).2
      (by decide)).2.trans (by rfl)
  · exact ((C4_resolution_amended ("nonexistent")
      [⟨some [⟨some ("c-abc12"), some ("prod"), none, none, none⟩], none⟩]).2
      (by decide)).2.trans (by rfl)

/-- `k8s_path.lstrip("/")`: drop the leading slashes of a path. -/
def lstripSlash (s : String) : String :=
  ⟨s.data.dropWhile (fun c => c = '/')⟩

/-- `AsyncRancher._k8s_base`: the Kubernetes proxy root for a cluster. -/
def _k8s_base (cluster_id : String) : String :=
  ("/k8s/clusters/") ++ cluster_id ++ ("/")

/-- The request path `k8s_get` issues its GET against: the proxy base of
the cluster followed by the slash-stripped Kubernetes path (the base-URL
prefix added by urljoin is common to every request and elided). -/
def k8s_get_path (cluster_id : String) (k8s_path : String) : String :=
  _k8s_base cluster_id ++ lstripSlash k8s_path

/-- The path chosen by `list_pods`:
`"api/v1/pods" if not namespace else f"api/v1/namespaces/{namespace}/pods"`
— Python truthiness, so an empty namespace string selects the
cluster-wide path. -/
def list_pods_path (ns : Option String) : String :=
  match ns with
  | none => ("api/v1/pods")
  | some s =>
    if s = "" then ("api/v1/pods")
    else ("api/v1/namespaces/") ++ s ++ ("/pods")

/-- `AsyncRancher.list_pods` up to the GET it issues: resolve the cluster
reference against the scripted listing, then return the request path of
the `k8s_get` call; a resolution failure propagates. -/
def list_pods (cluster : String) (pages : List (Page Cluster))
    (ns : Option String) : Except String String :=
  match (resolve_cluster_id cluster pages).1 with
  | .error e => .error e
  | .ok cid => .ok (k8s_get_path cid (list_pods_path ns))

lemma lstripSlash_list_pods_path (ns : Option String) :
    lstripSlash (list_pods_path ns) = list_pods_path ns := by
  cases ns with
  | none => rfl
  | some s =>
    by_cases hs : s = ""
    · simp only [list_pods_path, hs, if_pos]
      rfl
    · simp only [list_pods_path, hs, if_neg, not_false_iff]
      show String.mk (List.dropWhile (fun c => c = '/')
        ((("api/v1/namespaces/") ++ s ++ ("/pods")).data)) = _
      rw [String.data_append, String.data_append]
      show String.mk (List.dropWhile (fun c => c = '/')
        (('a' :: ("pi/v1/namespaces/").data ++ s.data) ++ ("/pods").data)) = _
      simp only [List.cons_append]
      rw [List.dropWhile_cons]
      simp only [decide_eq_true_eq, reduceIte]
      rfl

/-- C5 counterexample to the claim as stated: with a supplied namespace
argument that is the empty string, `list_pods` issues its GET against the
cluster-wide path `api/v1/pods`, not against
`api/v1/namespaces//pods` as the claim's case split predicts. -/
theorem C5_listpods_counterexample :
    list_pods ("c-abc12") [] (some ("")) =
        .ok ("/k8s/clusters/c-abc12/api/v1/pods") ∧
      ("/k8s/clusters/c-abc12/api/v1/pods" : String) ≠
        ("/k8s/clusters/c-abc12/api/v1/namespaces//pods") := by
  exact ⟨rfl, by decide⟩

/-- C5 (amended): `list_pods` first resolves the cluster reference; when
resolution yields id `cid`, it issues a GET against the per-cluster proxy
prefix `/k8s/clusters/` ++ cid ++ `/` followed by
`api/v1/namespaces/…/pods` when a non-empty namespace is supplied, and by
`api/v1/pods` when the namespace is absent or empty. -/
theorem C5_listpods_amended (cluster : String) (pages : List (Page Cluster))
    (ns : Option String) (cid : String)
    (h : (resolve_cluster_id cluster pages).1 = .ok cid) :
    list_pods cluster pages ns =
      .ok (("/k8s/clusters/") ++ cid ++ ("/") ++
        (match ns with
         | none => ("api/v1/pods")
         | some s =>
           if s = "" then ("api/v1/pods")
           else ("api/v1/namespaces/") ++ s ++ ("/pods"))) := by
  have hk : k8s_get_path cid (list_pods_path ns) =
      ("/k8s/clusters/") ++ cid ++ ("/") ++
        (match ns with
         | none => ("api/v1/pods")
         | some s =>
           if s = "" then ("api/v1/pods")
           else ("api/v1/namespaces/") ++ s ++ ("/pods")) := by
    show _k8s_base cid ++ lstripSlash (list_pods_path ns) = _
    rw [lstripSlash_list_pods_path]
    rfl
  rw [list_pods, h]
  show Except.ok (k8s_get_path cid (list_pods_path ns)) = _
  rw [hk]

/-- C5 witness: the spec scenario — cluster `prod` resolves to `c-abc12`
and pods of namespace `default` are fetched from
`/k8s/clusters/c-abc12/api/v1/namespaces/default/pods`; with no namespace
the GET goes to `/k8s/clusters/c-abc12/api/v1/pods`. -/
theorem C5_listpods_amended_witness :
    list_pods ("prod")
        [⟨some [⟨some ("c-abc12"), some ("prod"), none, none, none⟩], none⟩]
        (some ("default")) =
      .ok ("/k8s/clusters/c-abc12/api/v1/namespaces/default/pods") ∧
    list_pods ("prod")
        [⟨some [⟨some ("c-abc12"), some ("prod"), none, none, none⟩], none⟩]
        none =
      .ok ("/k8s/clusters/c-abc12/api/v1/pods") := by
  constructor
  · exact (C5_listpods_amended ("prod")
      [⟨some [⟨some ("c-abc12"), some ("prod"), none, none, none⟩], none⟩]
      (some ("default")) ("c-abc12") (by rfl)).trans (by rfl)
  · exact (C5_listpods_amended ("prod")
      [⟨some [⟨some ("c-abc12"), some ("prod"), none, none, none⟩], none⟩]
      none ("c-abc12") (by rfl)).trans (by rfl)

/-- One entry of a pod's `status.containerStatuses`, restricted to the
`ready` field the projection reads (possibly absent). -/
structure ContainerStatus where
  ready : Option Bool
deriving DecidableEq

/-- A pod's `status` object as read by the projection. -/
structure PodStatus where
  containerStatuses : Option (List ContainerStatus)
  phase : Option String
deriving DecidableEq

/-- A pod's `metadata` object as read by the projection. -/
structure PodMetadata where
  name : Option String
  «namespace» : Option String
  creationTimestamp : Option String
deriving DecidableEq

/-- One item of a Kubernetes PodList response: the `metadata` and `status`
sub-objects, each possibly absent. -/
structure Pod where
  metadata : Option PodMetadata
  status : Option PodStatus
deriving DecidableEq

/-- The simplified pod record produced by the `k8s_pods` tool
(dict keys `name`, `namespace`, `ready`, `status`, `age`). -/
structure PodInfo where
  name : Option String
  «namespace» : Option String
  ready : String
  status : Option String
  age : Option String
deriving DecidableEq

/-- `pod.get('status', {}).get('containerStatuses', [])`. -/
def podContainerStatuses (pod : Pod) : List ContainerStatus :=
  match pod.status with
  | none => []
  | some st => st.containerStatuses.getD []

/-- The per-pod projection inside `k8s_pods`: `ready` is the f-string
`sum(1 for c in containerStatuses if c.get('ready'))` over
`len(containerStatuses)` (a container counts when its `ready` field is
present and truthy). -/
def k8s_pod_info (pod : Pod) : PodInfo :=
  { name := (pod.metadata.getD ⟨none, none, none⟩).name,
    «namespace» := (pod.metadata.getD ⟨none, none, none⟩).«namespace»,
    ready :=
      toString ((podContainerStatuses pod).filter (fun c => c.ready.getD false)).length
        ++ ("/") ++ toString (podContainerStatuses pod).length,
    status := (pod.status.getD ⟨none, none⟩).phase,
    age := (pod.metadata.getD ⟨none, none, none⟩).creationTimestamp }

/-- The `k8s_pods` tool over a PodList response: project every item. -/
def k8s_pods (items : List Pod) : List PodInfo :=
  items.map k8s_pod_info

/-- C6 (claim): the projection computes `ready` as the count of containers
whose `ready` field is `true` over the total container count, and both
default to 0 — yielding `0/0` — when the `status` object or its
`containerStatuses` list is absent. -/
theorem C6_ready_ratio (pod : Pod) :
    (k8s_pod_info pod).ready =
      toString ((podContainerStatuses pod).countP (fun c => c.ready == some true))
        ++ ("/") ++ toString (podContainerStatuses pod).length ∧
    (pod.status = none → (k8s_pod_info pod).ready = ("0/0")) ∧
    (∀ st, pod.status = some st → st.containerStatuses = none →
      (k8s_pod_info pod).ready = ("0/0")) := by
  have hfun : (fun (c : ContainerStatus) => c.ready == some true) =
      (fun c => c.ready.getD false) := by
    funext c
    cases hr : c.ready with
    | none => rfl
    | some b => cases b <;> rfl
  refine ⟨?_, ?_, ?_⟩
  · rw [List.countP_eq_length_filter, hfun]
    rfl
  · intro h
    simp [k8s_pod_info, podContainerStatuses, h]
    rfl
  · intro st h hcs
    simp [k8s_pod_info, podContainerStatuses, h, hcs]
    rfl

/-- C6 witness: a pod with 2 of 3 containers ready yields `2/3`; a pod
whose status carries no `containerStatuses` yields `0/0`. -/
theorem C6_ready_ratio_witness :
    (k8s_pod_info ⟨none, some ⟨some [⟨some true⟩, ⟨some false⟩, ⟨some true⟩],
        some ("Running")⟩⟩).ready = ("2/3") ∧
    (k8s_pod_info ⟨none, some ⟨none, some ("Pending")⟩⟩).ready = ("0/0") := by
  constructor
  · exact (C6_ready_ratio ⟨none, some ⟨some [⟨some true⟩, ⟨some false⟩, ⟨some true⟩],
      some ("Running")⟩⟩).1.trans (by rfl)
  · exact (C6_ready_ratio ⟨none, some ⟨none, some ("Pending")⟩⟩).2.2
      ⟨none, some ("Pending")⟩ rfl rfl

/-- The per-cluster dict built by the `rancher_clusters` tool, kept as the
ordered key/value list of its literal: note the fifth key is `version`,
its value read from the nested `rancherKubernetesEngineConfig` object. -/
def rancher_clusters_item (c : Cluster) : List (String × Option String) :=
  [(("id"), c.id), (("name"), c.name), (("displayName"), c.displayName),
   (("state"), c.state),
   (("version"), (c.rancherKubernetesEngineConfig.getD ⟨none⟩).kubernetesVersion)]

/-- The `rancher_clusters` tool over a scripted `/v3/clusters` listing:
every listed cluster is projected, in order. -/
def rancher_clusters (pages : List (Page Cluster)) :
    List (List (String × Option String)) :=
  (rancher_list_all pages).map rancher_clusters_item

/-- C8 counterexample to the claim as stated: the projected record's keys
are `id`, `name`, `displayName`, `state` and `version` — there is no
`kubernetesVersion` field in the output. -/
theorem C8_clusters_counterexample :
    ((rancher_clusters_item ⟨some ("c-abc12"), some ("prod"), some ("Prod"),
        some ("active"), some ⟨some ("v1.28.7")⟩⟩).map Prod.fst) =
      [("id"), ("name"), ("displayName"), ("state"), ("version")] ∧
    ("kubernetesVersion") ∉
      ((rancher_clusters_item ⟨some ("c-abc12"), some ("prod"), some ("Prod"),
          some ("active"), some ⟨some ("v1.28.7")⟩⟩).map Prod.fst) := by
  refine ⟨rfl, by decide⟩

/-- C8 (amended): `rancher_clusters` projects every listed cluster into a
record with fields `id`, `name`, `displayName`, `state` and `version` (the
Kubernetes version, read from the nested
`rancherKubernetesEngineConfig.kubernetesVersion`); a missing source field
is surfaced as an absent value rather than causing failure. -/
theorem C8_clusters_amended (pages : List (Page Cluster)) :
    rancher_clusters pages = (rancher_list_all pages).map rancher_clusters_item ∧
    (∀ c : Cluster,
      (rancher_clusters_item c).map Prod.fst =
        [("id"), ("name"), ("displayName"), ("state"), ("version")] ∧
      (rancher_clusters_item c).lookup ("id") = some c.id ∧
      (rancher_clusters_item c).lookup ("name") = some c.name ∧
      (rancher_clusters_item c).lookup ("displayName") = some c.displayName ∧
      (rancher_clusters_item c).lookup ("state") = some c.state ∧
      (rancher_clusters_item c).lookup ("version") =
        some (match c.rancherKubernetesEngineConfig with
              | none => none
              | some k => k.kubernetesVersion)) ∧
    rancher_clusters_item ⟨none, none, none, none, none⟩ =
      [(("id"), none), (("name"), none), (("displayName"), none),
       (("state"), none), (("version"), none)] := by
  refine ⟨rfl, ?_, rfl⟩
  intro c
  cases hk : c.rancherKubernetesEngineConfig with
  | none => exact ⟨rfl, rfl, rfl, rfl, rfl, by simp [rancher_clusters_item, hk, List.lookup]⟩
  | some k => exact ⟨rfl, rfl, rfl, rfl, rfl, by simp [rancher_clusters_item, hk, List.lookup]⟩

/-- C8 witness: the spec cluster projects to the five keyed values with
`version` holding `v1.28.7`, and an all-missing record projects without
failure to five absent values. -/
theorem C8_clusters_amended_witness :
    (rancher_clusters_item ⟨some ("c-abc12"), some ("prod"), some ("Prod"),
        some ("active"), some ⟨some ("v1.28.7")⟩⟩).lookup ("version") =
      some (some ("v1.28.7")) ∧
    rancher_clusters [⟨some [⟨none, none, none, none, none⟩], none⟩] =
      [[(("id"), none), (("name"), none), (("displayName"), none),
        (("state"), none), (("version"), none)]] := by
  have h := C8_clusters_amended [⟨some [⟨none, none, none, none, none⟩], none⟩]
  constructor
  · exact ((h.2.1 ⟨some ("c-abc12"), some ("prod"), some ("Prod"),
      some ("active"), some ⟨some ("v1.28.7")⟩⟩).2.2.2.2.2).trans (by rfl)
  · exact h.1.trans (by rfl)

/-- The httpx.AsyncClient handle created by `start`: base URL, headers,
timeout and TLS verification (`some ca` for a truthy CA-bundle path,
`none` for `verify=True`, the system trust store). -/
structure HttpxClient where
  base_url : String
  headers : List (String × String)
  timeout : ℚ
  verify : Option String
deriving DecidableEq

/-- The `AsyncRancher` object state: its immutable configuration and the
mutable `_client` slot (None until `start` runs). -/
structure AsyncRancher where
  base_url : String
  token : String
  ca_bundle : Option String
  timeout : ℚ
  max_retries : Nat
  _client : Option HttpxClient
deriving DecidableEq

/-- The client `start` builds: bearer-token header from the token, and
`verify=self.ca_bundle if self.ca_bundle else True` (Python truthiness, so
an absent or empty bundle path falls back to the default trust store). -/
def mkHttpxClient (r : AsyncRancher) : HttpxClient :=
  { base_url := r.base_url,
    headers := [(("Authorization"), ("Bearer ") ++ r.token)],
    timeout := r.timeout,
    verify :=
      match r.ca_bundle with
      | none => none
      | some ca => if ca = "" then none else some ca }

/-- `AsyncRancher.start`: create the client only when `_client is None`,
otherwise leave the object untouched. -/
def start (r : AsyncRancher) : AsyncRancher :=
  match r._client with
  | none => { r with _client := some (mkHttpxClient r) }
  | some _ => r

/-- The process-wide configuration of `config.Settings`, as read by
`get_rancher`. -/
structure Settings where
  RANCHER_URL : String
  RANCHER_TOKEN : String
  RANCHER_CA_BUNDLE : Option String
  HTTP_TIMEOUT : ℚ
  MAX_RETRIES : Nat
deriving DecidableEq

/-- `get_rancher` as a transition on the `_rancher_singleton` global: when
the singleton is absent, construct the `AsyncRancher` from settings, start
it and store it; otherwise return the stored handle unchanged.  The result
is the returned handle and the new global state. -/
def get_rancher (s : Settings) (singleton : Option AsyncRancher) :
    AsyncRancher × Option AsyncRancher :=
  match singleton with
  | some r => (r, some r)
  | none =>
    let r := start
      { base_url := s.RANCHER_URL, token := s.RANCHER_TOKEN,
        ca_bundle := s.RANCHER_CA_BUNDLE, timeout := s.HTTP_TIMEOUT,
        max_retries := s.MAX_RETRIES, _client := none }
    (r, some r)

/-- C9 (claim): initializing the shared client handle is idempotent —
`start` on an object that already holds a client leaves it unchanged,
`start` twice equals `start` once, and a second acquisition of the shared
singleton returns the same single handle and state as the first. -/
theorem C9_start_idempotent (r : AsyncRancher) :
    start (start r) = start r ∧
    (∀ c, r._client = some c → start r = r) ∧
    (∀ (s : Settings) (g : Option AsyncRancher),
      get_rancher s (get_rancher s g).2 = get_rancher s g) := by
  refine ⟨?_, ?_, ?_⟩
  · cases hr : r._client with
    | none => simp [start, hr]
    | some c => simp [start, hr]
  · intro c hc
    simp [start, hc]
  · intro s g
    cases g with
    | some r2 => rfl
    | none =>
      show get_rancher s (some _) = _
      rfl

/-- C9 witness: with the spec configuration, acquiring the singleton twice
from the empty state gives the same handle and state as acquiring it once,
and restarting an already-started object changes nothing. -/
theorem C9_start_idempotent_witness :
    get_rancher ⟨("https://rancher.example.com"), ("tok123"), none, 15, 3⟩
        (get_rancher ⟨("https://rancher.example.com"), ("tok123"), none, 15, 3⟩ none).2 =
      get_rancher ⟨("https://rancher.example.com"), ("tok123"), none, 15, 3⟩ none ∧
    start (start ⟨("https://rancher.example.com"), ("tok123"), none, 15, 3, none⟩) =
      start ⟨("https://rancher.example.com"), ("tok123"), none, 15, 3, none⟩ ∧
    start ⟨("https://rancher.example.com"), ("tok123"), none, 15, 3,
        some ⟨("https://rancher.example.com"),
          [(("Authorization"), ("Bearer tok123"))], 15, none⟩⟩ =
      ⟨("https://rancher.example.com"), ("tok123"), none, 15, 3,
        some ⟨("https://rancher.example.com"),
          [(("Authorization"), ("Bearer tok123"))], 15, none⟩⟩ := by
  exact ⟨(C9_start_idempotent ⟨("https://rancher.example.com"), ("tok123"),
      none, 15, 3, none⟩).2.2 ⟨("https://rancher.example.com"), ("tok123"), none, 15, 3⟩ none,
    (C9_start_idempotent ⟨("https://rancher.example.com"), ("tok123"),
      none, 15, 3, none⟩).1,
    (C9_start_idempotent ⟨("https://rancher.example.com"), ("tok123"), none, 15, 3,
      some ⟨("https://rancher.example.com"),
        [(("Authorization"), ("Bearer tok123"))], 15, none⟩⟩).2.1
      ⟨("https://rancher.example.com"),
        [(("Authorization"), ("Bearer tok123"))], 15, none⟩ rfl⟩
